import Mathlib

/-!
Verification of the voice-call bridge and conversation-session manager of the
`guru` repository (backend/whatsapp-voice.js, backend/whatsapp.js,
backend/voice-config.js, backend/agent.js) against its design document.

The JavaScript source is shallowly embedded: module-global mutable maps become
explicit association lists threaded through the functions, JS object sharing
(the conversation-history array referenced both from the text-session map and
from a voice-session entry) becomes an explicit heap of history buffers indexed
by `historyRef`, and the two event-callback driven WebSocket protocols become a
step function on an explicit relay state together with an admissibility
predicate on event traces (which events the transports can deliver in which
states).  Outputs (messages sent on either socket, sockets opened or closed)
are recorded in an output trace so that ordering properties can be stated.
-/

/-- A conversation turn as stored in `session.conversationHistory`
(whatsapp.js, whatsapp-voice.js): a `role` (`"user"` or `"assistant"`) and a
`content` string.  Timestamps and the optional `agent` tag carried by some
entries play no role in any modelled computation and are elided. -/
structure Msg where
  role : String
  content : String
deriving DecidableEq, Repr

/-- JS `Map.get`: lookup in an insertion-ordered association list. -/
def alGet {k : Type} {v : Type} [DecidableEq k] : List (k × v) → k → Option v
  | [], _ => none
  | (k0, v0) :: rest, key => if k0 = key then some v0 else alGet rest key

/-- JS `Map.set`: replace the value at an existing key in place, else append
(JS maps preserve insertion order). -/
def alSet {k : Type} {v : Type} [DecidableEq k] : List (k × v) → k → v → List (k × v)
  | [], key, val => [(key, val)]
  | (k0, v0) :: rest, key, val =>
    if k0 = key then (key, val) :: rest else (k0, v0) :: alSet rest key val

/-- JS `Array.prototype.join(sep)` on the mapped strings
(voice-config.js, `formatConversationContext`). -/
def joinSep (sep : String) : List String → String
  | [] => ""
  | [a] => a
  | a :: rest => a ++ sep ++ joinSep sep rest

/-- One line of the formatted conversation context
(voice-config.js lines 79-84): `User: …` or `Assistant: …`. -/
def contextLine (m : Msg) : String :=
  (if m.role = "user" then "User" else "Assistant") ++ ": " ++ m.content

/-- voice-config.js `formatConversationContext(conversationHistory, platform)`:
`null` (here `none`) on a missing or empty history, otherwise the priming block
that embeds every turn as a `Speaker: content` line joined by blank lines. -/
def formatConversationContext (conversationHistory : List Msg) (platform : String) :
    Option String :=
  if conversationHistory.isEmpty then none
  else
    let conversationText := joinSep "\n\n" (conversationHistory.map contextLine)
    let platformText := if platform = "whatsapp" then "via WhatsApp" else ""
    some ("PREVIOUS CONVERSATION CONTEXT:\n\nThe user just had a text conversation with you "
      ++ platformText
      ++ ". Here's the complete conversation history:\n\n"
      ++ conversationText
      ++ "\n\n---\nYou are now switching to voice mode. Reference specific details from this conversation when greeting the user.")

/-- agent.js `routeToAgent`: the valid agent names the routing response is
checked against. -/
def validAgents : List String := ["healthcare", "financial", "legal"]

/-- Is `needle` a prefix of `hay`? (executable helper for `substrB`). -/
def prefixB {α : Type} [DecidableEq α] : List α → List α → Bool
  | [], _ => true
  | _ :: _, [] => false
  | a :: as, b :: bs => if a = b then prefixB as bs else false

/-- Is `needle` a contiguous sublist of `hay`? (executable helper for
`substrB`). -/
def infixB {α : Type} [DecidableEq α] (needle : List α) : List α → Bool
  | [] => needle.isEmpty
  | b :: bs => prefixB needle (b :: bs) || infixB needle bs

/-- JS `hay.includes(needle)`: substring containment on the character
lists. -/
def substrB (needle hay : String) : Bool :=
  infixB needle.data hay.data

/-- JS `raw.trim().toLowerCase()` as applied to the classifier response in
agent.js (`content.text.trim().toLowerCase()`): strip surrounding whitespace
and lowercase, on the character list. -/
def normResponse (s : String) : String :=
  ⟨(((s.data.dropWhile Char.isWhitespace).reverse.dropWhile Char.isWhitespace).reverse).map
    Char.toLower⟩

/-- agent.js `routeToAgent(userPrompt)` with the external classifier call
abstracted to its outcome: `Except.error` when the `query` throws (including a
transport timeout surfacing as an error), `Except.ok none` when no assistant
text message arrives (so `routingResponse` stays `null`, making
`routingResponse?.includes(agent)` falsy for every agent), and
`Except.ok (some raw)` for the final text content.  The code lowercases and
trims the response, looks for the first valid agent name contained in it
(`validAgents.find(agent => routingResponse?.includes(agent)) || 'healthcare'`)
and falls back to `'healthcare'` on error. -/
def routeToAgent (classifierResult : Except Unit (Option String)) : String :=
  match classifierResult with
  | .error _ => "healthcare"
  | .ok none => "healthcare"
  | .ok (some raw) =>
    let routingResponse := normResponse raw
    (validAgents.find? (fun agent => substrB agent routingResponse)).getD "healthcare"

/-- Classifier outcomes the design calls fallback cases: the call errored (or
timed out, surfacing as an error), produced no text, or produced text
containing no known profile name. -/
def classifierFallback : Except Unit (Option String) → Prop
  | .error _ => True
  | .ok none => True
  | .ok (some s) => ∀ a ∈ validAgents, substrB a (normResponse s) = false

/-- whatsapp-voice.js `connectToOpenAI` lines 229-240: the agent-selection
prologue.  `classify` is `routeToAgent` kept abstract; the second component
counts how many times the classifier is invoked (0 or 1), making
"without invoking the classifier" observable. -/
def selectVoiceAgent (classify : String → String) (session : Option (List Msg)) :
    String × Nat :=
  match session with
  | none => ("healthcare", 0)
  | some conversationHistory =>
    if conversationHistory.isEmpty then ("healthcare", 0)
    else
      match (conversationHistory.filter (fun m => m.role == "user")).getLast? with
      | none => ("healthcare", 0)
      | some lastUserMessage => (classify lastUserMessage.content, 1)

/-- A `sessions.get(phoneNumber)` entry (whatsapp.js `getSession`):
`conversationHistory` is a mutable JS array shared by reference, embedded as
the index `historyRef` into `Store.heap`; `voiceCallActive` is the property
added by whatsapp-voice.js `getWhatsAppSession` (absent = `false`). -/
structure TextSession where
  phoneNumber : String
  historyRef : Nat
  lastActivity : Nat
  voiceCallActive : Bool
deriving DecidableEq, Repr

/-- A `voiceSessions.get(callSid)` entry (whatsapp-voice.js lines 63-67): the
spread copy `{...session, callSid, startTime}` — it copies the text session's
fields, in particular the reference `historyRef` to the same history array. -/
structure VoiceSession where
  phoneNumber : String
  historyRef : Nat
  lastActivity : Nat
  voiceCallActive : Bool
  callSid : Option String
  startTime : Nat
deriving DecidableEq, Repr

/-- The module-global mutable state of whatsapp.js and whatsapp-voice.js:
`heap` holds the conversation-history arrays (JS objects, addressed by
`historyRef`), `sessions` is the `sessions` map of whatsapp.js keyed by phone
number, `voiceSessions` is the `voiceSessions` map of whatsapp-voice.js keyed
by `callSid` (`none` models the JS value `undefined` used as a map key when
the webhook payload carries no CallSid). -/
structure Store where
  heap : List (List Msg)
  sessions : List (String × TextSession)
  voiceSessions : List (Option String × VoiceSession)
deriving DecidableEq, Repr

def emptyStore : Store := ⟨[], [], []⟩

/-- whatsapp.js `getSession(phoneNumber)`: create the session (with a fresh
empty history array) if absent, then stamp `lastActivity = Date.now()` and
return the stored object. -/
def getSession (now : Nat) (phoneNumber : String) (st : Store) : TextSession × Store :=
  match alGet st.sessions phoneNumber with
  | some s =>
    let s2 := { s with lastActivity := now }
    (s2, { st with sessions := alSet st.sessions phoneNumber s2 })
  | none =>
    let fresh : TextSession :=
      { phoneNumber := phoneNumber, historyRef := st.heap.length,
        lastActivity := now, voiceCallActive := false }
    (fresh, { st with heap := st.heap ++ [[]],
                      sessions := alSet st.sessions phoneNumber fresh })

/-- whatsapp-voice.js `getWhatsAppSession(phoneNumber)`: fetch the shared
text session and set `voiceCallActive = true` on the stored object. -/
def getWhatsAppSession (now : Nat) (phoneNumber : String) (st : Store) :
    TextSession × Store :=
  let p := getSession now phoneNumber st
  let s2 := { p.1 with voiceCallActive := true }
  (s2, { p.2 with sessions := alSet p.2.sessions phoneNumber s2 })

/-- whatsapp-voice.js line 58, `from.replace('whatsapp:', '')`: JS `replace`
removes the first occurrence of the literal; for the webhook's `From` values
that occurrence is the leading prefix, so the model strips a leading
`whatsapp:` when present. -/
def stripWhatsApp (s : String) : String :=
  if prefixB "whatsapp:".data s.data then ⟨s.data.drop 9⟩ else s

/-- The inbound-call webhook payload `req.body` (Twilio posts `From`, `To`,
`CallSid`); each field may be absent. -/
structure VoiceWebhookBody where
  From : Option String
  To : Option String
  CallSid : Option String
deriving DecidableEq, Repr

/-- The TwiML document `handleWhatsAppVoiceCall` responds with: either the
normal greeting-plus-`<Connect><Stream>` directive carrying the `callSid` and
`phoneNumber` stream parameters, or the catch-block apology-and-hangup
document. -/
inductive VoiceWebhookResponse
  | streamTwiml (callSid : Option String) (phoneNumber : String)
  | errorTwiml
deriving DecidableEq, Repr

/-- whatsapp-voice.js `handleWhatsAppVoiceCall(req, res)` (lines 44-110).
A payload without `From` throws `TypeError` at `from.replace` before any state
is touched and the catch block answers with the error TwiML.  Otherwise the
shared session is fetched (creating it if needed), `voiceSessions.set(callSid,
{...session, callSid, startTime})` is executed unconditionally — also when
`callSid` is absent (`undefined`) or already active — and the streaming TwiML
is returned. -/
def handleWhatsAppVoiceCall (now : Nat) (body : VoiceWebhookBody) (st : Store) :
    VoiceWebhookResponse × Store :=
  match body.From with
  | none => (.errorTwiml, st)
  | some fromNum =>
    let phoneNumber := stripWhatsApp fromNum
    let p := getWhatsAppSession now phoneNumber st
    let vs : VoiceSession :=
      { phoneNumber := p.1.phoneNumber, historyRef := p.1.historyRef,
        lastActivity := p.1.lastActivity, voiceCallActive := p.1.voiceCallActive,
        callSid := body.CallSid, startTime := now }
    (.streamTwiml body.CallSid phoneNumber,
     { p.2 with voiceSessions := alSet p.2.voiceSessions body.CallSid vs })

/-- whatsapp-voice.js `handleVoiceCallStatus`: on a `completed` status the
voice session, if present, is deleted from `voiceSessions` (nothing else is
done to it). -/
def handleVoiceCallStatus (callSid : Option String) (callStatus : String) (st : Store) :
    Store :=
  if callStatus = "completed" then
    match alGet st.voiceSessions callSid with
    | some _ =>
      { st with voiceSessions := st.voiceSessions.filter (fun kv => !decide (kv.1 = callSid)) }
    | none => st
  else st

/-- An action on a connection handle: closing the telephony-side or
AI-backend-side socket.  Recorded so that "closes both connections" is a
statement the model can make (or refute) about a function. -/
inductive CloseAction
  | closeTelephonyConn
  | closeAIConn
deriving DecidableEq, Repr

/-- whatsapp.js line 317: the idle timeout of the cleanup sweep, one hour in
milliseconds. -/
def cleanupTimeoutMs : Nat := 60 * 60 * 1000

/-- whatsapp.js `cleanupOldSessions()` (lines 315-325): delete from the
text-message `sessions` map every entry idle for more than one hour.  The
function touches neither `voiceSessions` nor the heap and performs no
operation on any connection handle — the returned `CloseAction` list records
every socket operation it performs, which is none. -/
def cleanupOldSessions (now : Nat) (st : Store) : Store × List CloseAction :=
  ({ st with sessions :=
      st.sessions.filter (fun kv => !decide (now - kv.2.lastActivity > cleanupTimeoutMs)) },
   [])

/-- whatsapp-voice.js lines 352-358 and 374-380: a transcript turn is pushed
onto `session.conversationHistory`, where `session` is
`voiceSessions.get(callSid)` captured at stream start; the push mutates the
shared history array (`historyRef`). -/
def pushTurn (callSid : Option String) (m : Msg) (st : Store) : Store :=
  match alGet st.voiceSessions callSid with
  | none => st
  | some vs =>
    { st with heap := st.heap.set vs.historyRef (st.heap.getD vs.historyRef [] ++ [m]) }

/-- The context-priming message `connectToOpenAI` builds for a call (lines
279-294): `formatConversationContext(session.conversationHistory, 'whatsapp')`
for the session `voiceSessions.get(callSid)`; `none` when there is no session
or no history (in which case nothing is injected). -/
def primingContext (callSid : Option String) (st : Store) : Option String :=
  match alGet st.voiceSessions callSid with
  | none => none
  | some vs => formatConversationContext (st.heap.getD vs.historyRef []) "whatsapp"

def c2Body : VoiceWebhookBody :=
  { From := some "whatsapp:+15551234567", To := some "whatsapp:+14155238886",
    CallSid := some "CA1" }

def c4Body : VoiceWebhookBody :=
  { From := some "whatsapp:+15551234567", To := some "whatsapp:+14155238886",
    CallSid := none }

def c5Voice : VoiceSession :=
  { phoneNumber := "+15551234567", historyRef := 0, lastActivity := 0,
    voiceCallActive := true, callSid := some "CA1", startTime := 0 }

def c5Store : Store :=
  { heap := [[]],
    sessions := [("+15551234567",
      { phoneNumber := "+15551234567", historyRef := 0, lastActivity := 0,
        voiceCallActive := true })],
    voiceSessions := [(some "CA1", c5Voice)] }

/-- WebSocket `readyState` as far as the relay observes it: `connecting` (0),
`opened` (1, the only state in which `openAiWs.readyState === 1` holds), and
`closedSt` (closing/closed, 2-3). -/
inductive WsReady
  | connecting
  | opened
  | closedSt
deriving DecidableEq, Repr

/-- The events delivered to one Media-Stream WebSocket connection handler
(whatsapp-voice.js `setupMediaStreamWebSocket`): the Twilio messages
(`start`, `media`, `stop`), the Twilio socket closing (`twClose`), and the
events of the per-call OpenAI socket: `aiOpen` (its `open` event fires),
`aiTimer` (the 100 ms `setTimeout` inside the `open` handler resolves, after
which `response.create` is sent), the OpenAI messages the handler reacts to
(`aiAudioDelta`, `aiTranscript`, `aiResponseDone` with the joined text of the
response output), `aiClose` and `aiError`. -/
inductive Event
  | start (streamSid callSid phoneNumber : String)
  | media (payload : String)
  | stop
  | twClose
  | aiOpen
  | aiTimer
  | aiAudioDelta (delta : String)
  | aiTranscript (transcript : String)
  | aiResponseDone (text : Option String)
  | aiClose
  | aiError
deriving DecidableEq, Repr

/-- The externally visible actions the handler performs, in order:
`connectAI` (`new WebSocket(…realtime…)`), the three priming sends to OpenAI
(`session.update`, `conversation.item.create`, `response.create`), audio
appends to OpenAI, media frames to Twilio, and closing either socket.
`closeTelephony` is in the alphabet so that "the telephony side is hung up"
is expressible; the code never performs it. -/
inductive Output
  | connectAI
  | aiSessionUpdate
  | aiItemCreate (ctx : String)
  | aiResponseCreate
  | aiAudioAppend (audio : String)
  | twMedia (streamSid payload : String)
  | closeAI
  | closeTelephony
deriving DecidableEq, Repr

/-- The closure state of one Media-Stream connection handler: the `let`
variables `streamSid`, `callSid`, `phoneNumber`, `openAiWs` (its readyState,
`none` before `connectToOpenAI` assigns it) and `session` (captured as its
`conversationHistory`; `none` when `voiceSessions.get(callSid)` found
nothing), plus `primingWait` marking the `open` handler suspended in its
100 ms wait, and the (read-only here) `voiceSessions` registry as the map
from callSid to that session's conversation history. -/
structure RelayState where
  streamSid : Option String
  callSid : Option String
  phoneNumber : Option String
  openAi : Option WsReady
  primingWait : Bool
  sessionHistory : Option (List Msg)
  registry : List (String × List Msg)
deriving DecidableEq, Repr

/-- A fresh Media-Stream connection: all closure variables `null`. -/
def initRelay (registry : List (String × List Msg)) : RelayState :=
  { streamSid := none, callSid := none, phoneNumber := none, openAi := none,
    primingWait := false, sessionHistory := none, registry := registry }

/-- One step of the connection handler (whatsapp-voice.js lines 161-404).
`start` captures the stream parameters, looks the session up and opens the
OpenAI socket; `media` forwards the payload as an
`input_audio_buffer.append` only when `openAiWs.readyState === 1`, else the
frame is dropped on the floor; `stop` and the Twilio close event close the
OpenAI socket if present; `aiOpen` sends `session.update` and, when the
session has history, `conversation.item.create` with the formatted context
and then suspends in the 100 ms wait (`primingWait`); `aiTimer` resumes the
handler, which sends `response.create`; `aiAudioDelta` forwards the delta to
Twilio as a media frame; `aiTranscript` and `aiResponseDone` push transcript
turns onto the captured session history; `aiClose` and `aiError` only log
(the socket's readyState becomes closed on `close`). -/
def relayStep (s : RelayState) : Event → RelayState × List Output
  | .start sid c phone =>
    ({ s with streamSid := some sid, callSid := some c, phoneNumber := some phone,
              sessionHistory := alGet s.registry c, openAi := some .connecting },
     [.connectAI])
  | .media payload =>
    if s.openAi = some .opened then (s, [.aiAudioAppend payload]) else (s, [])
  | .stop =>
    if s.openAi.isSome then ({ s with openAi := some .closedSt }, [.closeAI]) else (s, [])
  | .twClose =>
    if s.openAi.isSome then ({ s with openAi := some .closedSt }, [.closeAI]) else (s, [])
  | .aiOpen =>
    match s.sessionHistory with
    | some h =>
      if h.isEmpty then ({ s with openAi := some .opened }, [.aiSessionUpdate])
      else
        ({ s with openAi := some .opened, primingWait := true },
         [.aiSessionUpdate,
          .aiItemCreate ((formatConversationContext h "whatsapp").getD "")])
    | none => ({ s with openAi := some .opened }, [.aiSessionUpdate])
  | .aiTimer => ({ s with primingWait := false }, [.aiResponseCreate])
  | .aiAudioDelta d => (s, [.twMedia (s.streamSid.getD "") d])
  | .aiTranscript t =>
    match s.sessionHistory with
    | some h => ({ s with sessionHistory := some (h ++ [⟨"user", t⟩]) }, [])
    | none => (s, [])
  | .aiResponseDone txt =>
    match s.sessionHistory, txt with
    | some h, some msgText =>
      if msgText = "" then (s, [])
      else ({ s with sessionHistory := some (h ++ [⟨"assistant", msgText⟩]) }, [])
    | _, _ => (s, [])
  | .aiClose => ({ s with openAi := some .closedSt }, [])
  | .aiError => (s, [])

/-- Which events the transports can deliver in a given state: Twilio sends
exactly one `start` per stream and `media`/`stop` only after it; the OpenAI
socket fires `open` only while connecting, messages and `close`/`error` only
once it exists, and the 100 ms timer only while the `open` handler is
suspended on it. -/
def admissibleStep (s : RelayState) : Event → Bool
  | .start _ _ _ => s.callSid.isNone
  | .media _ => s.callSid.isSome
  | .stop => s.callSid.isSome
  | .twClose => true
  | .aiOpen => decide (s.openAi = some .connecting)
  | .aiTimer => s.primingWait
  | .aiAudioDelta _ => decide (s.openAi = some .opened)
  | .aiTranscript _ => decide (s.openAi = some .opened)
  | .aiResponseDone _ => decide (s.openAi = some .opened)
  | .aiClose => s.openAi.isSome
  | .aiError => s.openAi.isSome

/-- Is the whole event trace deliverable from `s`? -/
def admissibleRun : RelayState → List Event → Bool
  | _, [] => true
  | s, e :: es => admissibleStep s e && admissibleRun (relayStep s e).1 es

/-- Run the handler over an event trace, accumulating the outputs in order. -/
def relayRun : RelayState → List Event → RelayState × List Output
  | s, [] => (s, [])
  | s, e :: es =>
    ((relayRun (relayStep s e).1 es).1,
     (relayStep s e).2 ++ (relayRun (relayStep s e).1 es).2)

/-- Scans an output trace: `true` iff no audio-append is emitted before the
first `conversation.item.create` (context injection). -/
def noAppendBeforeItem : List Output → Bool
  | [] => true
  | o :: rest =>
    match o with
    | .aiItemCreate _ => true
    | .aiAudioAppend _ => false
    | _ => noAppendBeforeItem rest

/-- Scans an output trace: `true` iff no audio-append is emitted before the
first `response.create` — i.e. the priming sequence completes before any live
audio is forwarded, as the claim states. -/
def primingCompletesBeforeFirstAudio : List Output → Bool
  | [] => true
  | o :: rest =>
    match o with
    | .aiResponseCreate => true
    | .aiAudioAppend _ => false
    | _ => primingCompletesBeforeFirstAudio rest

/-- Every `start` event in the trace names a callSid registered in
`voiceSessions`. -/
def startRegistered (registry : List (String × List Msg)) : Event → Bool
  | .start _ c _ => (alGet registry c).isSome
  | _ => true

/-- Invariant for the C1 induction: the OpenAI socket has not yet opened, the
`open` handler is not suspended, and if the socket is connecting the captured
session has nonempty history. -/
def goodPre (s : RelayState) : Prop :=
  s.openAi ≠ some .opened ∧ s.primingWait = false ∧
    (s.openAi = some .connecting → ∃ h, s.sessionHistory = some h ∧ h.isEmpty = false)

/-- Marks the only output that hangs up or speaks into the telephony side. -/
def isTelephonyTermination : Output → Bool
  | .closeTelephony => true
  | _ => false

/-- An event the Bridging one-for-one forwarding theorem quantifies over:
an inbound Twilio media frame or an OpenAI audio-output delta. -/
def isBridgeEvent : Event → Bool
  | .media _ => true
  | .aiAudioDelta _ => true
  | _ => false

/-- The single output each bridging event is forwarded as (junk on
non-bridging events, which the theorem's hypothesis excludes). -/
def bridgeForward (sid : String) : Event → Output
  | .media p => .aiAudioAppend p
  | .aiAudioDelta d => .twMedia sid d
  | _ => .closeAI

def c1Registry : List (String × List Msg) := [("CA1", [⟨"user", "hi"⟩])]

def c1Trace : List Event :=
  [.start "MS1" "CA1" "+15551234567", .aiOpen, .media "AAAA", .aiTimer]

def c3Registry : List (String × List Msg) := [("CA1", [])]

def c3Trace : List Event := [.start "MS1" "CA1" "+15551234567", .aiOpen, .aiClose]

def c3State : RelayState :=
  { streamSid := some "MS1", callSid := some "CA1", phoneNumber := some "+15551234567",
    openAi := some .opened, primingWait := false, sessionHistory := some [],
    registry := [("CA1", [])] }

def c6State : RelayState :=
  { streamSid := some "MS1", callSid := some "CA1", phoneNumber := some "+15551234567",
    openAi := some .opened, primingWait := false,
    sessionHistory := some [⟨"user", "hi"⟩], registry := [("CA1", [⟨"user", "hi"⟩])] }

theorem alGet_alSet_self {k v : Type} [DecidableEq k]
    (m : List (k × v)) (key : k) (val : v) : alGet (alSet m key val) key = some val := by
  induction m with
  | nil => simp [alGet, alSet]
  | cons kv rest ih =>
    by_cases h : kv.1 = key
    · simp [alSet, h, alGet]
    · simp [alSet, h, alGet, ih]

/-- C8: For every call whose identity has no prior conversation history
(no session found for the call, or a session whose history is empty), the
agent-selection prologue returns the default profile `healthcare` and never
invokes the classifier (invocation count 0). -/
theorem c8_no_history_default_agent (classify : String → String)
    (session : Option (List Msg)) (h : session = none ∨ session = some []) :
    selectVoiceAgent classify session = ("healthcare", 0) := by
  rcases h with h | h <;> subst h <;> simp [selectVoiceAgent]

theorem c8_witness :
    selectVoiceAgent (fun _ => "legal") none = ("healthcare", 0) :=
  c8_no_history_default_agent (fun _ => "legal") none (Or.inl rfl)

/-- C9: whatever the classifier outcome, `routeToAgent` returns one of the
known profile names, and on every fallback outcome (error or timeout, no text,
or text naming no known profile) it returns the default `healthcare`. -/
theorem c9_classifier_fallback (r : Except Unit (Option String)) :
    routeToAgent r ∈ validAgents ∧
      (classifierFallback r → routeToAgent r = "healthcare") := by
  constructor
  · match r with
    | .error _ => simp [routeToAgent, validAgents]
    | .ok none => simp [routeToAgent, validAgents]
    | .ok (some s) =>
      simp only [routeToAgent]
      cases hfind : (validAgents.find? fun agent => substrB agent (normResponse s)) with
      | none => simp [validAgents]
      | some a =>
        have := List.mem_of_find?_eq_some hfind
        simpa using this
  · intro hbad
    match r with
    | .error _ => simp [routeToAgent]
    | .ok none => simp [routeToAgent]
    | .ok (some s) =>
      simp only [classifierFallback] at hbad
      simp only [routeToAgent]
      have hnone : (validAgents.find? fun agent => substrB agent (normResponse s)) = none := by
        apply List.find?_eq_none.mpr
        intro a ha
        simp [hbad a ha]
      rw [hnone]
      rfl

theorem c9_witness :
    routeToAgent (Except.ok (some "I cannot classify this")) ∈ validAgents ∧
      routeToAgent (Except.ok (some "I cannot classify this")) = "healthcare" := by
  have h := c9_classifier_fallback (Except.ok (some "I cannot classify this"))
  exact ⟨h.1, h.2 (by simp only [classifierFallback]; decide)⟩

/-- C2 fails on the code: a second inbound-call webhook for a callId that is
already active does not fail with `DuplicateSession` — `voiceSessions.set`
silently overwrites the active session's registry entry (here its `startTime`
changes from 1000 to 2000) and the normal streaming TwiML is returned. -/
theorem c2_counterexample :
    (handleWhatsAppVoiceCall 2000 c2Body
        (handleWhatsAppVoiceCall 1000 c2Body emptyStore).2).1 ≠
      VoiceWebhookResponse.errorTwiml ∧
    alGet (handleWhatsAppVoiceCall 2000 c2Body
        (handleWhatsAppVoiceCall 1000 c2Body emptyStore).2).2.voiceSessions (some "CA1") ≠
      alGet (handleWhatsAppVoiceCall 1000 c2Body emptyStore).2.voiceSessions (some "CA1") := by
  decide

/-- C2 amended: `create(callId, identity)` never fails on a duplicate callId —
the handler unconditionally executes `voiceSessions.set(callSid, ...)`, so the
registry entry for that callId is replaced by the new session (last write
wins) and the normal streaming TwiML is returned. -/
theorem c2_amended_create_overwrites (now : Nat) (body : VoiceWebhookBody)
    (st : Store) (f cs : String)
    (hFrom : body.From = some f) (hSid : body.CallSid = some cs) :
    (handleWhatsAppVoiceCall now body st).1 =
      VoiceWebhookResponse.streamTwiml (some cs) (stripWhatsApp f) ∧
    ∃ vs : VoiceSession,
      alGet (handleWhatsAppVoiceCall now body st).2.voiceSessions (some cs) = some vs ∧
      vs.startTime = now := by
  simp only [handleWhatsAppVoiceCall, hFrom, hSid]
  exact ⟨trivial, _, alGet_alSet_self _ _ _, rfl⟩

theorem c2_amended_witness :
    (handleWhatsAppVoiceCall 2000 c2Body
        (handleWhatsAppVoiceCall 1000 c2Body emptyStore).2).1 =
      VoiceWebhookResponse.streamTwiml (some "CA1") "+15551234567" ∧
    ∃ vs : VoiceSession,
      alGet (handleWhatsAppVoiceCall 2000 c2Body
          (handleWhatsAppVoiceCall 1000 c2Body emptyStore).2).2.voiceSessions (some "CA1") =
        some vs ∧
      vs.startTime = 2000 := by
  have h := c2_amended_create_overwrites 2000 c2Body
    ((handleWhatsAppVoiceCall 1000 c2Body emptyStore).2)
    "whatsapp:+15551234567" "CA1" rfl rfl
  exact ⟨by rw [h.1]; decide, h.2⟩

/-- C4 fails on the code: an inbound-call webhook missing `CallSid` is not
rejected — the handler returns the normal streaming TwiML (not a validation
error) and a registry entry keyed by the missing call id is created. -/
theorem c4_counterexample :
    (handleWhatsAppVoiceCall 1000 c4Body emptyStore).1 ≠
      VoiceWebhookResponse.errorTwiml ∧
    (handleWhatsAppVoiceCall 1000 c4Body emptyStore).2.voiceSessions ≠
      emptyStore.voiceSessions := by
  decide

/-- C4 amended: only a payload missing `From` is rejected (through the generic
catch block) with an error TwiML and no state change; a payload missing
`callId` is accepted — the handler returns the normal streaming TwiML and
creates a Session Registry entry keyed by the missing (`undefined`) call
id. -/
theorem c4_amended_missing_fields (now : Nat) (body : VoiceWebhookBody) (st : Store) :
    (body.From = none →
      handleWhatsAppVoiceCall now body st = (VoiceWebhookResponse.errorTwiml, st)) ∧
    (∀ f, body.From = some f → body.CallSid = none →
      (handleWhatsAppVoiceCall now body st).1 =
        VoiceWebhookResponse.streamTwiml none (stripWhatsApp f) ∧
      (alGet (handleWhatsAppVoiceCall now body st).2.voiceSessions none).isSome = true) := by
  constructor
  · intro h
    simp [handleWhatsAppVoiceCall, h]
  · intro f hFrom hSid
    simp only [handleWhatsAppVoiceCall, hFrom, hSid]
    exact ⟨trivial, by rw [alGet_alSet_self]; rfl⟩

theorem c4_amended_witness :
    handleWhatsAppVoiceCall 1000 { From := none, To := none, CallSid := some "CA1" }
        emptyStore = (VoiceWebhookResponse.errorTwiml, emptyStore) ∧
    (handleWhatsAppVoiceCall 1000 c4Body emptyStore).1 =
      VoiceWebhookResponse.streamTwiml none "+15551234567" ∧
    (alGet (handleWhatsAppVoiceCall 1000 c4Body emptyStore).2.voiceSessions none).isSome =
      true := by
  refine ⟨(c4_amended_missing_fields 1000
    { From := none, To := none, CallSid := some "CA1" } emptyStore).1 rfl, ?_, ?_⟩
  · have h := ((c4_amended_missing_fields 1000 c4Body emptyStore).2
      "whatsapp:+15551234567" rfl rfl).1
    rw [h]; decide
  · exact ((c4_amended_missing_fields 1000 c4Body emptyStore).2
      "whatsapp:+15551234567" rfl rfl).2

/-- C5 fails on the code: a voice session idle for a day (far beyond the
one-hour timeout) survives the cleanup sweep untouched — the sweep only
prunes the text-message `sessions` map — and the sweep performs no close
operation on any connection handle. -/
theorem c5_counterexample :
    alGet (cleanupOldSessions 86400000 c5Store).1.voiceSessions (some "CA1") =
      some c5Voice ∧
    (cleanupOldSessions 86400000 c5Store).2 = [] := by
  decide

/-- C5 amended: the periodic sweep removes sessions idle for more than one
hour from the text-message `sessions` table only; it leaves the voice-call
Session Registry (`voiceSessions`) untouched and closes no connection
handles. -/
theorem c5_amended_sweep (now : Nat) (st : Store) :
    (∀ p ts, (p, ts) ∈ st.sessions → now - ts.lastActivity > cleanupTimeoutMs →
      (p, ts) ∉ (cleanupOldSessions now st).1.sessions) ∧
    (cleanupOldSessions now st).1.voiceSessions = st.voiceSessions ∧
    (cleanupOldSessions now st).2 = [] := by
  refine ⟨?_, rfl, rfl⟩
  intro p ts hmem hidle hmem2
  have := (List.mem_filter.mp hmem2).2
  simp [hidle] at this

theorem mem_joinSep_infix (sep : String) (l : List String) (a : String) (h : a ∈ l) :
    a.data <:+: (joinSep sep l).data := by
  induction l with
  | nil => cases h
  | cons b rest ih =>
    cases rest with
    | nil =>
      simp only [List.mem_singleton] at h
      subst h
      simp [joinSep]
    | cons c rest2 =>
      rcases List.mem_cons.mp h with h | h
      · subst h
        simp only [joinSep, String.data_append]
        rw [List.append_assoc]
        exact (List.prefix_append _ _).isInfix
      · have hx := ih h
        simp only [joinSep, String.data_append]
        exact hx.trans (List.suffix_append _ _).isInfix

theorem content_infix_contextLine (m : Msg) :
    m.content.data <:+: (contextLine m).data := by
  simp only [contextLine, String.data_append]
  exact ((List.suffix_append _ _).isInfix)

theorem formatConversationContext_infix (hist : List Msg) (p : String) (m : Msg)
    (hne : hist.isEmpty = false) (hm : m ∈ hist) :
    ∃ ctx, formatConversationContext hist p = some ctx ∧ m.content.data <:+: ctx.data := by
  simp only [formatConversationContext, hne, Bool.false_eq_true, if_false]
  refine ⟨_, rfl, ?_⟩
  have h1 : m.content.data <:+: (contextLine m).data := content_infix_contextLine m
  have h2 : (contextLine m).data <:+: (joinSep "\n\n" (hist.map contextLine)).data :=
    mem_joinSep_infix _ _ _ (List.mem_map_of_mem _ hm)
  simp only [String.data_append]
  refine (h1.trans h2).trans ?_
  exact ((List.suffix_append _ _).isInfix).trans ((List.prefix_append _ _).isInfix)

theorem foldl_pushTurn (c : Option String) (vs : VoiceSession)
    (h0 : vs.historyRef = 0) (T : List Msg) :
    ∀ (st : Store) (acc : List Msg),
      alGet st.voiceSessions c = some vs → st.heap = [acc] →
      (T.foldl (fun s m => pushTurn c m s) st) = { st with heap := [acc ++ T] } := by
  induction T with
  | nil =>
    intro st acc hget hheap
    simp only [List.foldl_nil, List.append_nil]
    cases st
    simp_all
  | cons m rest ih =>
    intro st acc hget hheap
    have hstep : pushTurn c m st = { st with heap := [acc ++ [m]] } := by
      simp [pushTurn, hget, h0, hheap]
    rw [List.foldl_cons, hstep]
    rw [ih { st with heap := [acc ++ [m]] } (acc ++ [m]) hget rfl]
    simp [List.append_assoc]

/-- C7: for two sequential calls from the same `From` identity, the transcript
turns pushed during the first call land in the shared conversation-history
array (the voice session's spread copy shares the array reference with the
text-session map), so the second call's priming message exists and contains
every transcript turn's text verbatim. -/
theorem c7_sequential_calls_context (now1 now2 : Nat) (fromNum c1 c2 : String)
    (T : List Msg) (hT : T ≠ []) :
    ∃ ctx,
      primingContext (some c2)
        ((handleWhatsAppVoiceCall now2
            { From := some fromNum, To := none, CallSid := some c2 }
            (T.foldl (fun s m => pushTurn (some c1) m s)
              (handleWhatsAppVoiceCall now1
                { From := some fromNum, To := none, CallSid := some c1 }
                emptyStore).2)).2) = some ctx ∧
      ∀ m ∈ T, m.content.data <:+: ctx.data := by
  have hTE : T.isEmpty = false := by
    cases T with
    | nil => exact absurd rfl hT
    | cons a t => rfl
  set p := stripWhatsApp fromNum with hp
  have hcall1 :
      (handleWhatsAppVoiceCall now1
        { From := some fromNum, To := none, CallSid := some c1 } emptyStore).2 =
      { heap := [[]],
        sessions := [(p, { phoneNumber := p, historyRef := 0,
                           lastActivity := now1, voiceCallActive := true })],
        voiceSessions := [(some c1,
          { phoneNumber := p, historyRef := 0, lastActivity := now1,
            voiceCallActive := true, callSid := some c1, startTime := now1 })] } := by
    simp [handleWhatsAppVoiceCall, getWhatsAppSession, getSession, emptyStore,
      alGet, alSet]
  rw [hcall1]
  rw [foldl_pushTurn (some c1)
    { phoneNumber := p, historyRef := 0, lastActivity := now1,
      voiceCallActive := true, callSid := some c1, startTime := now1 } rfl T _ []
    (by simp [alGet]) rfl]
  simp only [List.nil_append]
  have hcall2 :
      (handleWhatsAppVoiceCall now2
        { From := some fromNum, To := none, CallSid := some c2 }
        { heap := [T],
          sessions := [(p, { phoneNumber := p, historyRef := 0,
                             lastActivity := now1, voiceCallActive := true })],
          voiceSessions := [(some c1,
            { phoneNumber := p, historyRef := 0, lastActivity := now1,
              voiceCallActive := true, callSid := some c1, startTime := now1 })] }).2 =
      { heap := [T],
        sessions := [(p, { phoneNumber := p, historyRef := 0,
                           lastActivity := now2, voiceCallActive := true })],
        voiceSessions := alSet
          [(some c1,
            { phoneNumber := p, historyRef := 0, lastActivity := now1,
              voiceCallActive := true, callSid := some c1, startTime := now1 })]
          (some c2)
          { phoneNumber := p, historyRef := 0, lastActivity := now2,
            voiceCallActive := true, callSid := some c2, startTime := now2 } } := by
    simp [handleWhatsAppVoiceCall, getWhatsAppSession, getSession, alGet, alSet]
  rw [hcall2]
  simp only [primingContext, alGet_alSet_self]
  have := formatConversationContext_infix T "whatsapp"
  simp only [List.getD]
  obtain ⟨ctx, hctx, _⟩ := formatConversationContext_infix T "whatsapp"
    (T.headD ⟨"", ""⟩) hTE (by cases T with | nil => exact absurd rfl hT | cons a t => simp)
  refine ⟨ctx, ?_, ?_⟩
  · simpa using hctx
  · intro m hm
    obtain ⟨ctx2, hctx2, hinf⟩ := formatConversationContext_infix T "whatsapp" m hTE hm
    rw [hctx2] at hctx
    cases hctx
    exact hinf

theorem c7_witness :
    ∃ ctx,
      primingContext (some "CA2")
        ((handleWhatsAppVoiceCall 2000
            { From := some "whatsapp:+15551234567", To := none, CallSid := some "CA2" }
            ([(⟨"user", "I need help with health insurance"⟩ : Msg)].foldl
              (fun s m => pushTurn (some "CA1") m s)
              (handleWhatsAppVoiceCall 1000
                { From := some "whatsapp:+15551234567", To := none, CallSid := some "CA1" }
                emptyStore).2)).2) = some ctx ∧
      "I need help with health insurance".data <:+: ctx.data := by
  obtain ⟨ctx, h1, h2⟩ := c7_sequential_calls_context 1000 2000 "whatsapp:+15551234567"
    "CA1" "CA2" [⟨"user", "I need help with health insurance"⟩] (by decide)
  exact ⟨ctx, h1, h2 ⟨"user", "I need help with health insurance"⟩ (by simp)⟩

theorem c5_amended_witness :
    ("+15551234567",
      ({ phoneNumber := "+15551234567", historyRef := 0, lastActivity := 0,
         voiceCallActive := true } : TextSession)) ∉
      (cleanupOldSessions 86400000 c5Store).1.sessions ∧
    (cleanupOldSessions 86400000 c5Store).1.voiceSessions = c5Store.voiceSessions := by
  have h := c5_amended_sweep 86400000 c5Store
  exact ⟨h.1 _ _ (by decide) (by decide), h.2.1⟩

theorem relayStep_registry (s : RelayState) (e : Event) :
    (relayStep s e).1.registry = s.registry := by
  cases e <;> simp only [relayStep] <;> (repeat' split) <;> rfl

/-- C1 fails on the code: on the admissible trace where the OpenAI socket
opens, a Twilio media frame arrives during the 100 ms wait of the `open`
handler, and only then the timer fires, the audio-append is sent to the AI
backend before `response.create` — the priming sequence has not completed
when the first live audio frame is forwarded (the media gate checks only
`readyState === 1`, not that priming finished). -/
theorem c1_counterexample :
    admissibleRun (initRelay c1Registry) c1Trace = true ∧
    primingCompletesBeforeFirstAudio (relayRun (initRelay c1Registry) c1Trace).2 = false := by
  decide

theorem relay_noAppend_aux (es : List Event) :
    ∀ s : RelayState, goodPre s →
      (∀ c h, alGet s.registry c = some h → h.isEmpty = false) →
      (∀ e ∈ es, startRegistered s.registry e = true) →
      admissibleRun s es = true →
      noAppendBeforeItem (relayRun s es).2 = true := by
  induction es with
  | nil => intro s _ _ _ _; rfl
  | cons e rest ih =>
    intro s hgood hreg hstart hadm
    rw [admissibleRun, Bool.and_eq_true] at hadm
    obtain ⟨hadm1, hadm2⟩ := hadm
    have hstart1 := hstart e (List.mem_cons_self e rest)
    have hstartRest : ∀ x ∈ rest, startRegistered s.registry x = true :=
      fun x hx => hstart x (List.mem_cons_of_mem e hx)
    cases e with
    | start sid c phone =>
      exact ih
        { s with streamSid := some sid, callSid := some c, phoneNumber := some phone,
                 sessionHistory := alGet s.registry c, openAi := some WsReady.connecting }
        ⟨by simp, hgood.2.1, fun _ => by
          obtain ⟨h, hh⟩ := Option.isSome_iff_exists.mp hstart1
          exact ⟨h, hh, hreg c h hh⟩⟩
        hreg hstartRest hadm2
    | media p =>
      have hne : ¬ s.openAi = some WsReady.opened := hgood.1
      have hadm2x : admissibleRun s rest = true := by
        simpa only [relayStep, if_neg hne] using hadm2
      simp only [relayRun, relayStep, if_neg hne]
      exact ih s hgood hreg hstartRest hadm2x
    | stop =>
      by_cases hs : s.openAi.isSome
      · have hadm2x : admissibleRun { s with openAi := some WsReady.closedSt } rest = true := by
          simpa only [relayStep, if_pos hs] using hadm2
        simp only [relayRun, relayStep, if_pos hs]
        exact ih { s with openAi := some WsReady.closedSt }
          ⟨by simp, hgood.2.1, by simp⟩ hreg hstartRest hadm2x
      · have hadm2x : admissibleRun s rest = true := by
          simpa only [relayStep, if_neg hs] using hadm2
        simp only [relayRun, relayStep, if_neg hs]
        exact ih s hgood hreg hstartRest hadm2x
    | twClose =>
      by_cases hs : s.openAi.isSome
      · have hadm2x : admissibleRun { s with openAi := some WsReady.closedSt } rest = true := by
          simpa only [relayStep, if_pos hs] using hadm2
        simp only [relayRun, relayStep, if_pos hs]
        exact ih { s with openAi := some WsReady.closedSt }
          ⟨by simp, hgood.2.1, by simp⟩ hreg hstartRest hadm2x
      · have hadm2x : admissibleRun s rest = true := by
          simpa only [relayStep, if_neg hs] using hadm2
        simp only [relayRun, relayStep, if_neg hs]
        exact ih s hgood hreg hstartRest hadm2x
    | aiOpen =>
      have hconn : s.openAi = some WsReady.connecting := by
        simpa [admissibleStep] using hadm1
      obtain ⟨h, hh, hne⟩ := hgood.2.2 hconn
      simp only [relayRun, relayStep, hh, hne, Bool.false_eq_true, if_false,
        List.cons_append, noAppendBeforeItem]
    | aiTimer =>
      have hx : s.primingWait = true := by simpa [admissibleStep] using hadm1
      rw [hgood.2.1] at hx
      cases hx
    | aiAudioDelta d =>
      have hx : s.openAi = some WsReady.opened := by simpa [admissibleStep] using hadm1
      exact absurd hx hgood.1
    | aiTranscript t =>
      have hx : s.openAi = some WsReady.opened := by simpa [admissibleStep] using hadm1
      exact absurd hx hgood.1
    | aiResponseDone txt =>
      have hx : s.openAi = some WsReady.opened := by simpa [admissibleStep] using hadm1
      exact absurd hx hgood.1
    | aiClose =>
      exact ih { s with openAi := some WsReady.closedSt }
        ⟨by simp, hgood.2.1, by simp⟩ hreg hstartRest hadm2
    | aiError =>
      exact ih s hgood hreg hstartRest hadm2

/-- C1 amended: audio is gated only on the AI socket being open.  For every
admissible trace of a fresh Media-Stream connection, provided every session
in the registry has nonempty history and every `start` names a registered
callSid, no audio-append is forwarded to the AI backend before the
context-injection `conversation.item.create` has been sent (the `open`
handler sends `session.update` and the context item synchronously before any
suspension); the initial `response.create`, however, may be sent only after
audio forwarding has begun, and a session without history is never primed at
all. -/
theorem c1_amended_context_item_before_audio (registry : List (String × List Msg))
    (es : List Event)
    (hreg : ∀ c h, alGet registry c = some h → h.isEmpty = false)
    (hstart : ∀ e ∈ es, startRegistered registry e = true)
    (hadm : admissibleRun (initRelay registry) es = true) :
    noAppendBeforeItem (relayRun (initRelay registry) es).2 = true := by
  apply relay_noAppend_aux es (initRelay registry) _ hreg hstart hadm
  exact ⟨by simp [initRelay], rfl, by simp [initRelay]⟩

theorem c1_amended_witness :
    noAppendBeforeItem (relayRun (initRelay c1Registry) c1Trace).2 = true := by
  apply c1_amended_context_item_before_audio
  · intro c h hh
    simp only [c1Registry, alGet] at hh
    split at hh
    · cases hh; decide
    · cases hh
  · intro e he
    simp only [c1Trace, List.mem_cons, List.not_mem_nil, or_false] at he
    rcases he with rfl | rfl | rfl | rfl <;> decide
  · decide

/-- C3 fails on the code: on the admissible trace where the call starts, the
OpenAI socket opens and then drops, the handler emits nothing at all — no
spoken termination, no hangup of the telephony side (`closeTelephony` never
appears), and the session registry still holds the session; the `close`
handler only logs. -/
theorem c3_counterexample :
    admissibleRun (initRelay c3Registry) c3Trace = true ∧
    (relayRun (initRelay c3Registry) c3Trace).2 = [.connectAI, .aiSessionUpdate] ∧
    (relayRun (initRelay c3Registry) c3Trace).2.any isTelephonyTermination = false ∧
    (relayRun (initRelay c3Registry) c3Trace).1.registry = c3Registry := by
  decide

/-- C3 amended: if the AI-backend connection drops mid-call the relay indeed
never reopens it (a `connectAI` is only ever emitted by a telephony `start`
event), but it also takes no termination action: the `aiClose` step changes
only the socket state and emits no output — the telephony side is neither
given a spoken termination message nor hung up (no step ever emits
`closeTelephony`), and the session is not closed or removed until the
telephony side itself stops or the `completed` status callback arrives. -/
theorem c3_amended_ai_close_no_action (s : RelayState) :
    relayStep s .aiClose = ({ s with openAi := some WsReady.closedSt }, []) ∧
    (∀ e : Event, Output.connectAI ∈ (relayStep s e).2 →
      ∃ sid c phone, e = .start sid c phone) ∧
    (∀ e : Event, Output.closeTelephony ∉ (relayStep s e).2) := by
  refine ⟨rfl, ?_, ?_⟩
  · intro e he
    cases e
    case start sid c phone => exact ⟨sid, c, phone, rfl⟩
    all_goals
      simp only [relayStep] at he
    all_goals
      repeat' split at he
    all_goals simp_all
  · intro e he
    cases e
    all_goals
      simp only [relayStep] at he
    all_goals
      repeat' split at he
    all_goals simp_all

theorem c3_amended_witness :
    relayStep c3State .aiClose = ({ c3State with openAi := some WsReady.closedSt }, []) ∧
    (∃ sid c phone, (Event.start "MS1" "CA1" "+15551234567") = Event.start sid c phone) ∧
    Output.closeTelephony ∉ (relayStep c3State .aiClose).2 := by
  have h := c3_amended_ai_close_no_action c3State
  exact ⟨h.1, h.2.1 (.start "MS1" "CA1" "+15551234567") (by decide), h.2.2 .aiClose⟩

/-- C6: while the session is bridging (AI socket open, streamSid captured),
any interleaving of inbound Twilio media frames and OpenAI audio-output
deltas is forwarded one-for-one, unchanged and in strict receipt order: each
media frame becomes exactly one `input_audio_buffer.append` with the same
payload, each audio delta exactly one Twilio media frame with the same
payload, with no reordering, batching or dropping. -/
theorem c6_bridging_one_for_one (sid : String) (evs : List Event) :
    ∀ s : RelayState, s.openAi = some WsReady.opened → s.streamSid = some sid →
      (∀ e ∈ evs, isBridgeEvent e = true) →
      (relayRun s evs).2 = evs.map (bridgeForward sid) := by
  induction evs with
  | nil => intro s _ _ _; rfl
  | cons e rest ih =>
    intro s hopen hsid hbr
    have hbrRest : ∀ x ∈ rest, isBridgeEvent x = true :=
      fun x hx => hbr x (List.mem_cons_of_mem e hx)
    cases e
    case media p =>
      have hstep : relayStep s (.media p) = (s, [.aiAudioAppend p]) := by
        simp [relayStep, hopen]
      simp only [relayRun, hstep, List.map_cons]
      rw [ih s hopen hsid hbrRest]
      rfl
    case aiAudioDelta d =>
      have hstep : relayStep s (.aiAudioDelta d) = (s, [.twMedia sid d]) := by
        simp [relayStep, hsid]
      simp only [relayRun, hstep, List.map_cons]
      rw [ih s hopen hsid hbrRest]
      rfl
    all_goals exact absurd (hbr _ (List.mem_cons_self _ _)) (by simp [isBridgeEvent])

theorem c6_witness :
    (relayRun c6State [.media "AA", .aiAudioDelta "BB", .media "CC"]).2 =
      [Output.aiAudioAppend "AA", Output.twMedia "MS1" "BB", Output.aiAudioAppend "CC"] := by
  have h := c6_bridging_one_for_one "MS1" [.media "AA", .aiAudioDelta "BB", .media "CC"]
    c6State rfl rfl (by decide)
  exact h.trans rfl

/-- C10: a Twilio media frame arriving while the OpenAI socket is absent,
still connecting or already closed (`readyState !== 1`) is silently dropped:
the step emits nothing (not forwarded), the state is unchanged (not
buffered), and no error is raised. -/
theorem c10_media_dropped_when_not_open (s : RelayState) (payload : String)
    (h : s.openAi ≠ some WsReady.opened) :
    relayStep s (.media payload) = (s, []) := by
  simp [relayStep, h]

theorem c10_witness :
    relayStep (initRelay []) (.media "AAAA") = (initRelay [], []) :=
  c10_media_dropped_when_not_open (initRelay []) "AAAA" (by decide)
